import Mathlib

/-!
Shallow embedding of `pcap-haiku.c`, the Haiku live-capture backend of
libpcap.

Modelling conventions:
* Every interaction with the operating system (socket creation, `ioctl`
  calls, `recvfrom`) is driven by an explicit oracle record giving that
  call's outcome, and every OS-visible action the code performs is recorded
  in a trace of `OsAction` values, so that theorems can speak about which
  system calls a code path issues.
* Machine integers are modelled as `Nat`/`Int`; the only places the source
  relies on fixed-width behavior (the 32-bit `ps_ifdrop` subtraction in
  `pcap_stats_haiku`, a wrap the source itself comments on, and the
  `(bpf_u_int32)handle->snapshot` cast in `pcap_read_haiku`) are modelled
  with an explicit `% 2 ^ 32`.
* The `do { recvfrom } while (errno == B_INTERRUPTED)` retry loop of
  `pcap_read_haiku` is modelled by letting the oracle supply the outcome of
  the final iteration: the loop exits exactly when the outcome is not a
  `B_INTERRUPTED` failure, and `handle->break_loop` cannot change between
  iterations in this single-threaded model.
* The reused `struct ifreq` union is modelled by the one member whose value
  flows across calls, `ifr_flags` (read by `SIOCGIFFLAGS`, modified and
  written back by `SIOCSIFFLAGS`); members used purely within one call
  (`ifr_stats`, `ifr_addr`) are supplied by the per-call oracle.
* The compiled filter (`handle->fcode.bf_insns` plus the external
  `pcapint_filter` interpreter) is modelled as an optional function from the
  received bytes and the two length arguments to an accept decision.
-/

/-- Outcome of one fallible OS call: failure with an errno, or success with
a value. -/
inductive OsRes (α : Type) where
  | fail (errno : Nat)
  | ok (val : α)
deriving DecidableEq

/-- pcap.h generic failure code `PCAP_ERROR`. -/
def PCAP_ERROR : Int := -1

/-- pcap.h loop-interruption code `PCAP_ERROR_BREAK`. -/
def PCAP_ERROR_BREAK : Int := -2

/-- pcap.h distinguished code `PCAP_ERROR_NO_SUCH_DEVICE`. -/
def PCAP_ERROR_NO_SUCH_DEVICE : Int := -5

/-- pcap.h non-fatal warning code `PCAP_WARNING_PROMISC_NOTSUP`. -/
def PCAP_WARNING_PROMISC_NOTSUP : Int := 2

/-- pcap/dlt.h Ethernet link type. -/
def DLT_EN10MB : Nat := 1

/-- pcap/dlt.h raw-IP link type. -/
def DLT_RAW : Nat := 12

/-- pcap-int.h maximum snapshot length. -/
def MAXIMUM_SNAPLEN : Int := 262144

/-- Haiku socket.h address family `AF_INET`. -/
def AF_INET : Nat := 1

/-- Haiku socket.h address family `AF_LINK`. -/
def AF_LINK : Nat := 4

/-- net/if_types.h Ethernet interface type code. -/
def IFT_ETHER : Nat := 0x6

/-- net/if_types.h tunnel interface type code (`IFT_TUN` on older Haiku
versions; same numeric value). -/
def IFT_TUNNEL : Nat := 0x83

/-- net/if_types.h loopback interface type code. -/
def IFT_LOOP : Nat := 0x18

/-- Haiku net/if.h promiscuous-mode interface flag bit. -/
def IFF_PROMISC : Nat := 0x100

/-- errno value `EINVAL`; only its identity relative to other errno values
matters to the source. -/
def EINVAL : Nat := 22

/-- Haiku errno value `B_WOULD_BLOCK`; only its identity matters. -/
def B_WOULD_BLOCK : Nat := 11

/-- struct pcap_stat: the statistics record (`ps_recv`, `ps_drop`,
`ps_ifdrop`). -/
structure pcap_stat where
  ps_recv : Nat
  ps_drop : Nat
  ps_ifdrop : Nat
deriving DecidableEq

/-- struct pcap_haiku: the backend-private session data.  `stat.ps_ifdrop`
holds the activation-time interface-drop baseline, `ifr_flags` is the
flags member of the reused `struct ifreq`, and `orig_promisc` is the
promiscuous state observed at activation (zero-initialized by
`PCAP_CREATE_COMMON`). -/
structure pcap_haiku where
  stat : pcap_stat
  aux_socket : Int
  ifr_flags : Nat
  orig_promisc : Int
deriving DecidableEq

/-- The fields of `struct pcap` (pcap-int.h) that `pcap-haiku.c` touches.
`buffer_allocated` models `handle->buffer != NULL` and `ops_installed`
models the operation-table assignments (`read_op`, `stats_op`, ...). -/
structure pcap_t where
  fd : Int
  selectable_fd : Int
  opt_device : String
  opt_promisc : Bool
  snapshot : Int
  bufsize : Nat
  offset : Nat
  break_loop : Bool
  linktype : Nat
  buffer_allocated : Bool
  ops_installed : Bool
  errbuf : String
  priv : pcap_haiku
deriving DecidableEq

/-- struct pcap_pkthdr: the per-packet header handed to the callback. -/
structure pcap_pkthdr where
  caplen : Nat
  len : Nat
  ts_sec : Nat
  ts_usec : Nat
deriving DecidableEq

/-- OS-visible actions the backend can perform, recorded as a trace. -/
inductive OsAction where
  | socketOpen (family : Nat)
  | close (fd : Int)
  | getFlagsIoctl
  | setFlagsIoctl (flags : Nat)
  | getStatsIoctl
  | getAddrIoctl
  | packetCapIoctl
deriving DecidableEq

/-- Result of a step that returns an `int` status: the status, the updated
handle, and the trace of OS actions performed. -/
structure StepRes where
  ret : Int
  st : pcap_t
  tr : List OsAction
deriving DecidableEq

/-- Result of `pcap_cleanup_haiku`, which returns `void`: only the updated
handle and the action trace (the routine can never signal failure). -/
structure CleanupRes where
  st : pcap_t
  tr : List OsAction
deriving DecidableEq

/-- Result of `pcap_read_haiku`: the status, the updated handle, and the
list of headers passed to the user callback (one entry per callback
invocation). -/
structure ReadRes where
  ret : Int
  st : pcap_t
  cbs : List pcap_pkthdr
deriving DecidableEq

/-- Result of `pcap_stats_haiku`: the status, the updated handle, the
contents of the caller-supplied `struct pcap_stat` after the call, and the
action trace. -/
structure StatsRes where
  ret : Int
  st : pcap_t
  record : pcap_stat
  tr : List OsAction
deriving DecidableEq

/-- Oracle for the OS calls `pcap_cleanup_haiku` can issue: the outcome of
`SIOCGIFFLAGS` (errno, or the flags word) and of `SIOCSIFFLAGS`. -/
structure CleanupOS where
  getFlags : OsRes Nat
  setFlags : OsRes Unit
deriving DecidableEq

/-- Oracle for the OS calls of `pcap_activate_haiku`, in program order:
`socket(AF_INET)` (errno or descriptor), `SIOCGIFSTATS` (errno or the
kernel receive-drop total), `socket(AF_LINK)`, `SIOCGIFADDR` (errno or the
pair `(sdl_family, sdl_type)`), `SIOCSPACKETCAP`, the buffer `malloc`, and
the promiscuous-step `SIOCGIFFLAGS`/`SIOCSIFFLAGS`. -/
structure ActivateOS where
  auxSocket : OsRes Nat
  gifstats : OsRes Nat
  linkSocket : OsRes Nat
  gifaddr : OsRes (Nat × Nat)
  packetCap : OsRes Unit
  mallocOk : Bool
  getFlags : OsRes Nat
  setFlags : OsRes Unit
deriving DecidableEq

/-- Modelled from the spec: the error-formatting collaborator
`pcapint_fmt_errmsg_for_errno` (not part of `src/`) maps an OS error code
plus a context string into a human-readable message placed in the
session's error buffer. -/
def fmt_errmsg (name : String) (e : Nat) : String :=
  name ++ ": errno " ++ toString e

/-- Lowercase hexadecimal rendering, modelling the C `%x` format. -/
def hex_str (n : Nat) : String :=
  (Nat.toDigits 16 n).asString

/-- The `snprintf` message of the unexpected-address-family branch of
`pcap_activate_haiku`. -/
def af_link_msg (fam : Nat) (dev : String) : String :=
  "Got AF " ++ toString fam ++ " instead of AF_LINK for interface \"" ++ dev ++ "\"."

/-- The `snprintf` message of the unknown-interface-type branch of
`pcap_activate_haiku`. -/
def unknown_type_msg (t : Nat) (dev : String) : String :=
  "Unknown interface type 0x" ++ hex_str t ++ " for interface \"" ++ dev ++ "\"."

/-- The `snprintf` message of the oversized-datagram branch of
`pcap_read_haiku`. -/
def oversize_msg (got bufsize : Nat) : String :=
  "recvfrom() returned " ++ toString got ++ ", which exceeds the buffer size " ++ toString bufsize

/-- The handle produced by `pcapint_create_interface` via
`PCAP_CREATE_COMMON` (which zero-initializes the private data and sets
`fd = -1`; `pcapint_create_interface` then sets `aux_socket = -1`), after
the caller has set the promiscuous request and the requested snapshot
length through the standard option setters.  The interface-name validation
paths of `pcapint_create_interface` are not modelled; no claim depends on
them. -/
def create_handle (device : String) (promisc : Bool) (snaplen : Int) : pcap_t :=
  { fd := -1, selectable_fd := -1, opt_device := device, opt_promisc := promisc,
    snapshot := snaplen, bufsize := 0, offset := 0, break_loop := false,
    linktype := 0, buffer_allocated := false, ops_installed := false, errbuf := "",
    priv := { stat := { ps_recv := 0, ps_drop := 0, ps_ifdrop := 0 },
              aux_socket := -1, ifr_flags := 0, orig_promisc := 0 } }

/-- get_promisc: queries the interface flags over the auxiliary socket via
`SIOCGIFFLAGS` and reports whether `IFF_PROMISC` is set (`1`/`0`), or
`PCAP_ERROR` if the ioctl fails.  On success the OS fills
`ifreq.ifr_flags`. -/
def get_promisc (res : OsRes Nat) (h : pcap_t) : StepRes :=
  match res with
  | .fail e =>
      { ret := PCAP_ERROR, st := { h with errbuf := fmt_errmsg "SIOCGIFFLAGS" e },
        tr := [OsAction.getFlagsIoctl] }
  | .ok flags =>
      { ret := if flags &&& IFF_PROMISC ≠ 0 then 1 else 0,
        st := { h with priv.ifr_flags := flags },
        tr := [OsAction.getFlagsIoctl] }

/-- set_promisc: sets or clears `IFF_PROMISC` in the in-memory
`ifreq.ifr_flags` and issues `SIOCSIFFLAGS` with the new flags word.
Since `IFF_PROMISC` is a single bit, the C clear `flags &= ~IFF_PROMISC`
is modelled as `flags - (flags &&& IFF_PROMISC)`. -/
def set_promisc (res : OsRes Unit) (h : pcap_t) (enable : Bool) : StepRes :=
  let newFlags :=
    if enable then h.priv.ifr_flags ||| IFF_PROMISC
    else h.priv.ifr_flags - (h.priv.ifr_flags &&& IFF_PROMISC)
  let h1 := { h with priv.ifr_flags := newFlags }
  match res with
  | .fail e =>
      { ret := PCAP_ERROR, st := { h1 with errbuf := fmt_errmsg "SIOCSIFFLAGS" e },
        tr := [OsAction.setFlagsIoctl newFlags] }
  | .ok _ =>
      { ret := 0, st := h1, tr := [OsAction.setFlagsIoctl newFlags] }

/-- pcap_cleanup_haiku: closes the capture socket if open, then, if the
auxiliary socket is open, runs the conditional promiscuous-mode restore
(`opt.promisc && !orig_promisc && get_promisc(handle)` guards a
best-effort `set_promisc(handle, 0)` whose result is discarded) and closes
the auxiliary socket.  The routine returns `void`: it cannot signal
failure. -/
def pcap_cleanup_haiku (cos : CleanupOS) (h : pcap_t) : CleanupRes :=
  let fdPart : pcap_t × List OsAction :=
    if h.fd ≥ 0 then
      ({ h with fd := -1, selectable_fd := -1 }, [OsAction.close h.fd])
    else (h, [])
  let h1 := fdPart.1
  let tr1 := fdPart.2
  if h1.priv.aux_socket ≥ 0 then
    let promiscPart : pcap_t × List OsAction :=
      if h1.opt_promisc = true ∧ h1.priv.orig_promisc = 0 then
        let g := get_promisc cos.getFlags h1
        if g.ret ≠ 0 then
          let s := set_promisc cos.setFlags g.st false
          (s.st, g.tr ++ s.tr)
        else (g.st, g.tr)
      else (h1, [])
    let h2 := promiscPart.1
    { st := { h2 with priv.aux_socket := -1 },
      tr := tr1 ++ promiscPart.2 ++ [OsAction.close h2.priv.aux_socket] }
  else
    { st := h1, tr := tr1 }

/-- Input to one `pcap_read_haiku` invocation: the outcome of the
(`B_INTERRUPTED`-retried) `recvfrom` — an errno other than
`B_INTERRUPTED`, or the received datagram — and the
`real_time_clock_usecs` timestamp. -/
structure ReadInput where
  recv : OsRes (List Nat)
  ts : Nat
deriving DecidableEq

/-- pcap_read_haiku: checks the break flag, receives one datagram, counts
it in `ps_recv`, rejects oversized datagrams, runs the compiled filter
with the received length as both length arguments, and on acceptance
composes a header (`caplen = min(received, (bpf_u_int32)snapshot)`,
`len = received`) and invokes the callback once. -/
def pcap_read_haiku (fcode : Option (List Nat → Nat → Nat → Bool))
    (inp : ReadInput) (h : pcap_t) : ReadRes :=
  if h.break_loop then
    { ret := PCAP_ERROR_BREAK, st := { h with break_loop := false }, cbs := [] }
  else
    match inp.recv with
    | .fail e =>
        if e = B_WOULD_BLOCK then
          { ret := 0, st := h, cbs := [] }
        else
          { ret := PCAP_ERROR, st := { h with errbuf := fmt_errmsg "recvfrom" e }, cbs := [] }
    | .ok bytes =>
        let captureLength := bytes.length
        let h1 := { h with priv.stat.ps_recv := h.priv.stat.ps_recv + 1 }
        if captureLength > h1.bufsize then
          { ret := PCAP_ERROR, st := { h1 with errbuf := oversize_msg captureLength h1.bufsize }, cbs := [] }
        else
          let pass :=
            match fcode with
            | some f => f bytes captureLength captureLength
            | none => true
          if pass = false then
            { ret := 0, st := { h1 with priv.stat.ps_drop := h1.priv.stat.ps_drop + 1 }, cbs := [] }
          else
            let snap32 := ((h.snapshot % (2 : Int) ^ 32)).toNat
            { ret := 1, st := h1,
              cbs := [{ caplen := if captureLength ≤ snap32 then captureLength else snap32,
                        len := captureLength,
                        ts_sec := inp.ts / 1000000,
                        ts_usec := inp.ts % 1000000 }] }

/-- A sequence of read-loop invocations: threads the handle through
`pcap_read_haiku` and totals the callback invocations. -/
def run_reads (fcode : Option (List Nat → Nat → Nat → Bool))
    (inps : List ReadInput) (h : pcap_t) : pcap_t × Nat :=
  match inps with
  | [] => (h, 0)
  | i :: rest =>
      let r := pcap_read_haiku fcode i h
      let rec2 := run_reads fcode rest r.st
      (rec2.1, r.cbs.length + rec2.2)

/-- Whether one read-loop input is a successfully received datagram that
the compiled filter rejects. -/
def rejects (fcode : Option (List Nat → Nat → Nat → Bool)) (i : ReadInput) : Bool :=
  match i.recv, fcode with
  | .ok bytes, some f => ! f bytes bytes.length bytes.length
  | _, _ => false

/-- Whether one read-loop input is a successful receive of a datagram that
fits the session buffer (no receive error, no oversize condition). -/
def read_ok_input (bufsize : Nat) (i : ReadInput) : Bool :=
  match i.recv with
  | .ok bytes => decide (bytes.length ≤ bufsize)
  | .fail _ => false

/-- pcap_stats_haiku: first copies the running counters (including the
activation-time `ps_ifdrop` baseline) into the caller's record, then
issues `SIOCGIFSTATS`; on failure returns `PCAP_ERROR` with the record
already overwritten, on success replaces the record's `ps_ifdrop` with the
32-bit wrapping difference between the fresh kernel drop total and the
baseline. -/
def pcap_stats_haiku (res : OsRes Nat) (h : pcap_t) : StatsRes :=
  let record := h.priv.stat
  match res with
  | .fail e =>
      { ret := PCAP_ERROR, st := { h with errbuf := fmt_errmsg "SIOCGIFSTATS" e },
        record := record, tr := [OsAction.getStatsIoctl] }
  | .ok dropped =>
      { ret := 0, st := h,
        record := { record with ps_ifdrop := (dropped % 2 ^ 32 + 2 ^ 32 - record.ps_ifdrop % 2 ^ 32) % 2 ^ 32 },
        tr := [OsAction.getStatsIoctl] }

/-- The `switch (sdl->sdl_type)` of `pcap_activate_haiku`: the fixed
mapping from the link-level interface type code to the session link type,
`none` for the `default` (unknown type) branch. -/
def linktype_of_ift (t : Nat) : Option Nat :=
  if t = IFT_ETHER then some DLT_EN10MB
  else if t = IFT_TUNNEL ∨ t = IFT_LOOP then some DLT_RAW
  else none

/-- The `error:` label of `pcap_activate_haiku`: routes through
`pcap_cleanup_haiku` and returns `ret`. -/
def activate_error (cos : CleanupOS) (ret : Int) (h : pcap_t) (tr : List OsAction) :
    StepRes :=
  let c := pcap_cleanup_haiku cos h
  { ret := ret, st := c.st, tr := tr ++ c.tr }

/-- pcap_activate_haiku: opens the `AF_INET` auxiliary socket, records the
`SIOCGIFSTATS` drop baseline (`EINVAL` here is reported as
`PCAP_ERROR_NO_SUCH_DEVICE`), opens the `AF_LINK` capture socket, resolves
the link type from `SIOCGIFADDR`, installs capture mode via
`SIOCSPACKETCAP`, installs the operation table, clamps the snapshot
length, allocates the 64 KiB buffer, and finally applies the requested
promiscuous mode (enable failure yields the non-fatal
`PCAP_WARNING_PROMISC_NOTSUP`).  Every failure before the promiscuous
enable routes through the `error:` label, i.e. `pcap_cleanup_haiku`. -/
def pcap_activate_haiku (os : ActivateOS) (cos : CleanupOS) (h0 : pcap_t) : StepRes :=
  match os.auxSocket with
  | .fail e =>
      activate_error cos PCAP_ERROR { h0 with priv.aux_socket := -1, errbuf := fmt_errmsg "socket" e } [OsAction.socketOpen AF_INET]
  | .ok auxFd =>
      let h1 := { h0 with priv.aux_socket := (auxFd : Int) }
      match os.gifstats with
      | .fail e =>
          activate_error cos (if e = EINVAL then PCAP_ERROR_NO_SUCH_DEVICE else PCAP_ERROR) { h1 with errbuf := fmt_errmsg "SIOCGIFSTATS" e } [OsAction.socketOpen AF_INET, OsAction.getStatsIoctl]
      | .ok dropped =>
          let h2 := { h1 with priv.stat.ps_ifdrop := dropped }
          match os.linkSocket with
          | .fail e =>
              activate_error cos PCAP_ERROR { h2 with fd := -1, errbuf := fmt_errmsg "socket" e } [OsAction.socketOpen AF_INET, OsAction.getStatsIoctl, OsAction.socketOpen AF_LINK]
          | .ok linkFd =>
              let h3 := { h2 with fd := (linkFd : Int) }
              let tr3 := [OsAction.socketOpen AF_INET, OsAction.getStatsIoctl, OsAction.socketOpen AF_LINK]
              match os.gifaddr with
              | .fail e =>
                  activate_error cos PCAP_ERROR { h3 with errbuf := fmt_errmsg "SIOCGIFADDR" e } (tr3 ++ [OsAction.getAddrIoctl])
              | .ok famTyp =>
                  let tr4 := tr3 ++ [OsAction.getAddrIoctl]
                  if famTyp.1 ≠ AF_LINK then
                    activate_error cos PCAP_ERROR { h3 with errbuf := af_link_msg famTyp.1 h3.opt_device } tr4
                  else
                    match linktype_of_ift famTyp.2 with
                    | none =>
                        activate_error cos PCAP_ERROR { h3 with errbuf := unknown_type_msg famTyp.2 h3.opt_device } tr4
                    | some lt =>
                        let h4 := { h3 with linktype := lt }
                        match os.packetCap with
                        | .fail e =>
                            activate_error cos PCAP_ERROR { h4 with errbuf := fmt_errmsg "SIOCSPACKETCAP" e } (tr4 ++ [OsAction.packetCapIoctl])
                        | .ok _ =>
                            let tr5 := tr4 ++ [OsAction.packetCapIoctl]
                            let h5 := { h4 with selectable_fd := h4.fd, ops_installed := true }
                            let h6 := { h5 with snapshot := if h5.snapshot ≤ 0 ∨ h5.snapshot > MAXIMUM_SNAPLEN then MAXIMUM_SNAPLEN else h5.snapshot }
                            let h7 := { h6 with bufsize := 65536 }
                            if os.mallocOk = false then
                              activate_error cos PCAP_ERROR { h7 with errbuf := fmt_errmsg "buffer malloc" 0 } tr5
                            else
                              let h8 := { h7 with buffer_allocated := true, offset := 0 }
                              if h8.opt_promisc = true then
                                let g := get_promisc os.getFlags h8
                                let h9 := { g.st with priv.orig_promisc := g.ret }
                                if g.ret < 0 then
                                  activate_error cos PCAP_ERROR h9 (tr5 ++ g.tr)
                                else if g.ret = 0 then
                                  let s := set_promisc os.setFlags h9 true
                                  if s.ret < 0 then
                                    { ret := PCAP_WARNING_PROMISC_NOTSUP, st := s.st, tr := tr5 ++ g.tr ++ s.tr }
                                  else
                                    { ret := 0, st := s.st, tr := tr5 ++ g.tr ++ s.tr }
                                else
                                  { ret := 0, st := h9, tr := tr5 ++ g.tr }
                              else
                                { ret := 0, st := h8, tr := tr5 }

/-- Claim-side predicate (from the wording of the promiscuous invariant):
whether a teardown-time flags query reported the promiscuous flag as
enabled.  A failed query does not report the flag enabled. -/
def query_reports_enabled (res : OsRes Nat) : Bool :=
  match res with
  | .ok fl => fl &&& IFF_PROMISC != 0
  | .fail _ => false

/-- Concrete session for claim C1: promiscuous mode requested, snapshot
65535 requested. -/
def c1_h : pcap_t := create_handle "dev0" true 65535

/-- Concrete activation oracle for claim C1: the `AF_INET` control socket
opens (descriptor 3) and the stats-baseline `SIOCGIFSTATS` fails with
`EINVAL`, so activation fails before the capture socket is opened. -/
def c1_os : ActivateOS :=
  { auxSocket := .ok 3, gifstats := .fail EINVAL, linkSocket := .ok 4,
    gifaddr := .ok (AF_LINK, IFT_ETHER), packetCap := .ok (), mallocOk := true,
    getFlags := .ok 0, setFlags := .ok () }

/-- Concrete cleanup oracle for claim C1: at teardown the flags query
succeeds and reports `IFF_PROMISC` currently set (e.g. by another process
managing the same interface). -/
def c1_cos : CleanupOS := { getFlags := .ok IFF_PROMISC, setFlags := .ok () }

/-- Activation oracle for the claim C2 counterexample session: every step
succeeds, the interface is Ethernet, the promiscuous flag is observed
clear (`getFlags = ok 0`) and this session's enabling `SIOCSIFFLAGS`
succeeds. -/
def c2_act_os : ActivateOS :=
  { auxSocket := .ok 3, gifstats := .ok 0, linkSocket := .ok 4,
    gifaddr := .ok (AF_LINK, IFT_ETHER), packetCap := .ok (), mallocOk := true,
    getFlags := .ok 0, setFlags := .ok () }

/-- Cleanup oracle reachable only from failed activation paths of
`c2_act_os`; unused because that activation succeeds. -/
def c2_cos0 : CleanupOS := { getFlags := .ok 0, setFlags := .ok () }

/-- The claim C2 session: activated with promiscuous mode requested,
observed the flag disabled, and enabled it itself. -/
def c2_session : pcap_t :=
  (pcap_activate_haiku c2_act_os c2_cos0 (create_handle "dev0" true 100)).st

/-- Teardown oracle for claim C2: the fresh `SIOCGIFFLAGS` query fails
(errno 5), so it does not report the flag as enabled. -/
def c2_teardown : CleanupOS := { getFlags := .fail 5, setFlags := .ok () }

/-- Activation oracle for an ordinary successful non-promiscuous session,
used as a concrete witness input. -/
def act_os0 : ActivateOS :=
  { auxSocket := .ok 3, gifstats := .ok 7, linkSocket := .ok 4,
    gifaddr := .ok (AF_LINK, IFT_ETHER), packetCap := .ok (), mallocOk := true,
    getFlags := .ok 0, setFlags := .ok () }

/-- Cleanup oracle whose flags query reports the promiscuous flag clear. -/
def act_cos0 : CleanupOS := { getFlags := .ok 0, setFlags := .ok () }

/-- A fully activated non-promiscuous session on an Ethernet interface
(capture descriptor 4, control descriptor 3, 64 KiB buffer, snapshot
clamped to the maximum). -/
def act_session : pcap_t :=
  (pcap_activate_haiku act_os0 act_cos0 (create_handle "dev0" false 0)).st

/-- Witness filter for claim C3: accepts exactly the datagrams whose
length differs from 2. -/
def w3_f : Option (List Nat → Nat → Nat → Bool) := some (fun b _ _ => decide (b.length ≠ 2))

/-- Witness read sequence for claim C3: three successful receives of
lengths 1, 2 and 3; the filter `w3_f` rejects exactly the second. -/
def w3_inps : List ReadInput :=
  [{ recv := .ok [9], ts := 0 }, { recv := .ok [9, 9], ts := 5 },
   { recv := .ok [9, 9, 9], ts := 9 }]

/-- Witness activation oracle for claim C4: a loopback-type interface. -/
def w4_os : ActivateOS :=
  { auxSocket := .ok 3, gifstats := .ok 0, linkSocket := .ok 4,
    gifaddr := .ok (AF_LINK, IFT_LOOP), packetCap := .ok (), mallocOk := true,
    getFlags := .ok 0, setFlags := .ok () }

/-- Witness filter for claim C5: accepts exactly when both length
arguments are equal and match the received byte count. -/
def w5_f : List Nat → Nat → Nat → Bool := fun b s t => decide (s = t ∧ b.length = s)

/-- Witness read input for claim C5: a two-byte datagram. -/
def w5_inp : ReadInput := { recv := .ok [1, 2], ts := 3 }

/-- Witness read input for claim C6: a three-byte datagram. -/
def w6_inp : ReadInput := { recv := .ok [1, 2, 3], ts := 1000001 }

/-- Witness activation oracle for claim C8: the promiscuous flag is
observed already enabled (`getFlags` reports the `IFF_PROMISC` bit) and
the flags-set ioctl would fail if attempted. -/
def w8_os : ActivateOS :=
  { auxSocket := .ok 3, gifstats := .ok 0, linkSocket := .ok 4,
    gifaddr := .ok (AF_LINK, IFT_ETHER), packetCap := .ok (), mallocOk := true,
    getFlags := .ok IFF_PROMISC, setFlags := .fail 45 }

/-- Witness handle for claim C8: promiscuous capture requested. -/
def w8_h : pcap_t := create_handle "dev0" true 0

/-- Handle for the claim C4 counterexample: promiscuous mode requested. -/
def c4_h : pcap_t := create_handle "dev0" true 0

/-- Activation oracle for the claim C4 counterexample: all steps up to the
address query succeed, and the query reports an `AF_LINK` record whose
interface type code `0x1` is none of Ethernet, tunnel or loopback. -/
def c4_os : ActivateOS :=
  { auxSocket := .ok 3, gifstats := .ok 0, linkSocket := .ok 4,
    gifaddr := .ok (AF_LINK, 0x1), packetCap := .ok (), mallocOk := true,
    getFlags := .ok 0, setFlags := .ok () }

/-- Cleanup oracle for the claim C4 counterexample: the error-path
cleanup's `SIOCGIFFLAGS` fails (errno 5) and so writes the error
buffer. -/
def c4_cos : CleanupOS := { getFlags := .fail 5, setFlags := .ok () }

/-- Helper: `pcap_cleanup_haiku` never modifies the resolved link type. -/
theorem cleanup_st_linktype (cos : CleanupOS) (h : pcap_t) :
    (pcap_cleanup_haiku cos h).st.linktype = h.linktype := by
  unfold pcap_cleanup_haiku get_promisc set_promisc
  rcases cos.getFlags with e | fl <;> rcases cos.setFlags with e2 | u <;> dsimp only <;>
    split_ifs <;> rfl

/-- Helper: when promiscuous mode was not requested, `pcap_cleanup_haiku`
issues no flags ioctl and hence leaves the error buffer unchanged. -/
theorem cleanup_st_errbuf_no_promisc (cos : CleanupOS) (h : pcap_t)
    (hp : h.opt_promisc = false) :
    (pcap_cleanup_haiku cos h).st.errbuf = h.errbuf := by
  unfold pcap_cleanup_haiku get_promisc set_promisc
  rcases cos.getFlags with e | fl <;> rcases cos.setFlags with e2 | u <;> dsimp only <;>
    split_ifs <;> simp_all

/-- Helper: with both descriptors already closed, `pcap_cleanup_haiku` is
an observable no-op. -/
theorem cleanup_noop (cos : CleanupOS) (h : pcap_t)
    (hfd : h.fd < 0) (haux : h.priv.aux_socket < 0) :
    pcap_cleanup_haiku cos h = { st := h, tr := [] } := by
  have h1 : ¬ (h.fd ≥ 0) := by omega
  have h2 : ¬ (h.priv.aux_socket ≥ 0) := by omega
  simp [pcap_cleanup_haiku, h1, h2]

/-- Helper: from any reachable descriptor state (each descriptor either
`-1` or open), `pcap_cleanup_haiku` leaves both descriptors marked `-1`. -/
theorem cleanup_closes (cos : CleanupOS) (h : pcap_t)
    (hfd : h.fd = -1 ∨ h.fd ≥ 0) (haux : h.priv.aux_socket = -1 ∨ h.priv.aux_socket ≥ 0) :
    (pcap_cleanup_haiku cos h).st.fd = -1 ∧ (pcap_cleanup_haiku cos h).st.priv.aux_socket = -1 := by
  unfold pcap_cleanup_haiku get_promisc set_promisc
  rcases cos.getFlags with e | fl <;> rcases cos.setFlags with e2 | u <;> dsimp only <;>
    split_ifs <;> simp_all

/-- Helper: `pcap_cleanup_haiku` issues a `SIOCSIFFLAGS` ioctl exactly
when the auxiliary socket is open, promiscuous mode was requested,
`orig_promisc` is zero, and the fresh flags query either reports
`IFF_PROMISC` enabled or fails (a failed query returns `PCAP_ERROR`,
which the guard treats as true). -/
theorem cleanup_tr_setFlags (cos : CleanupOS) (h : pcap_t) :
    (∃ fl, OsAction.setFlagsIoctl fl ∈ (pcap_cleanup_haiku cos h).tr) ↔
      (h.priv.aux_socket ≥ 0 ∧ h.opt_promisc = true ∧ h.priv.orig_promisc = 0 ∧
       (query_reports_enabled cos.getFlags = true ∨ ∃ e, cos.getFlags = OsRes.fail e)) := by
  unfold pcap_cleanup_haiku get_promisc set_promisc
  rcases hg : cos.getFlags with e | fl <;> rcases cos.setFlags with e2 | u <;> dsimp only <;>
    split_ifs <;> simp_all [query_reports_enabled, PCAP_ERROR]

/-- Helper: one `pcap_read_haiku` invocation on a successful in-buffer
receive increments `ps_recv`, increments `ps_drop` exactly on a filter
reject, invokes the callback exactly on a filter accept, and preserves the
break flag and buffer size. -/
theorem read_ok_step (fc : Option (List Nat → Nat → Nat → Bool)) (inp : ReadInput)
    (bytes : List Nat) (h : pcap_t) (hb : h.break_loop = false)
    (hr : inp.recv = OsRes.ok bytes) (hlen : bytes.length ≤ h.bufsize) :
    (pcap_read_haiku fc inp h).st.priv.stat.ps_recv = h.priv.stat.ps_recv + 1 ∧
    (pcap_read_haiku fc inp h).st.priv.stat.ps_drop =
      h.priv.stat.ps_drop + (if rejects fc inp then 1 else 0) ∧
    (pcap_read_haiku fc inp h).cbs.length = (if rejects fc inp then 0 else 1) ∧
    (pcap_read_haiku fc inp h).st.break_loop = false ∧
    (pcap_read_haiku fc inp h).st.bufsize = h.bufsize := by
  have hno : ¬ (bytes.length > h.bufsize) := by omega
  rcases fc with _ | f
  · simp [pcap_read_haiku, rejects, hb, hr, hno]
  · rcases hpf : f bytes bytes.length bytes.length <;>
      simp [pcap_read_haiku, rejects, hb, hr, hno, hpf]

/-- Helper: over a sequence of successful in-buffer receives, the read
loop adds the sequence length to `ps_recv`, the reject count to
`ps_drop`, and invokes the callback once per accepted input. -/
theorem run_reads_spec (fc : Option (List Nat → Nat → Nat → Bool))
    (inps : List ReadInput) (h : pcap_t) (hb : h.break_loop = false)
    (hok : ∀ i ∈ inps, read_ok_input h.bufsize i = true) :
    (run_reads fc inps h).1.priv.stat.ps_recv = h.priv.stat.ps_recv + inps.length ∧
    (run_reads fc inps h).1.priv.stat.ps_drop =
      h.priv.stat.ps_drop + inps.countP (rejects fc) ∧
    (run_reads fc inps h).2 + inps.countP (rejects fc) = inps.length := by
  induction inps generalizing h with
  | nil => simp [run_reads]
  | cons i rest ih =>
    have hoki := hok i (by simp)
    rcases hrec : i.recv with e | bytes
    · simp [read_ok_input, hrec] at hoki
    · have hlen : bytes.length ≤ h.bufsize := by
        simpa [read_ok_input, hrec] using hoki
      obtain ⟨e1, e2, e3, e4, e5⟩ := read_ok_step fc i bytes h hb hrec hlen
      have hok2 : ∀ j ∈ rest, read_ok_input (pcap_read_haiku fc i h).st.bufsize j = true := by
        intro j hj
        rw [e5]
        exact hok j (by simp [hj])
      obtain ⟨r1, r2, r3⟩ := ih (pcap_read_haiku fc i h).st e4 hok2
      simp only [run_reads, List.countP_cons, List.length_cons]
      have hsum : (if rejects fc i = true then (0 : Nat) else 1) +
          (if rejects fc i = true then (1 : Nat) else 0) = 1 := by
        split <;> rfl
      refine ⟨by omega, by omega, by omega⟩

/-- Claim C1 (refuted; code bug): the claim states that when activation
fails after the control socket opened but before the capture socket opened
(here: the stats-baseline ioctl fails with `EINVAL` on a
promiscuous-requested session), cleanup performs no promiscuous-flag read
or write whatsoever.  Evaluating the code at that input shows the
opposite: because `orig_promisc` still holds its zero initialization, the
cleanup guard `opt.promisc && !orig_promisc && get_promisc(handle)` issues
a `SIOCGIFFLAGS` read, and — the flag being reported set by another
process — a `SIOCSIFFLAGS` write clearing `IFF_PROMISC`, although this
session never set it.  This contradicts the source's own comment ("Unset
promiscuous mode iff the activation function had set it and it is still
set now"), so the claim is right and the code is wrong. -/
theorem C1_cleanup_probes_promisc_after_early_failure :
    (pcap_activate_haiku c1_os c1_cos c1_h).ret = PCAP_ERROR_NO_SUCH_DEVICE ∧
    OsAction.getFlagsIoctl ∈ (pcap_activate_haiku c1_os c1_cos c1_h).tr ∧
    OsAction.setFlagsIoctl 0 ∈ (pcap_activate_haiku c1_os c1_cos c1_h).tr := by decide

/-- Claim C2, counterexample: a session that reached the promiscuous step,
observed the flag disabled (`orig_promisc = 0`) and enabled it itself,
whose teardown-time flags query fails: the fresh query does not report the
flag enabled, yet cleanup still issues the disabling `SIOCSIFFLAGS` ioctl,
contradicting the claim's "exactly when a fresh flags query at teardown
time still reports the flag enabled". -/
theorem C2_counterexample :
    (pcap_activate_haiku c2_act_os c2_cos0 (create_handle "dev0" true 100)).ret = 0 ∧
    c2_session.priv.orig_promisc = 0 ∧
    query_reports_enabled c2_teardown.getFlags = false ∧
    OsAction.setFlagsIoctl 0 ∈ (pcap_cleanup_haiku c2_teardown c2_session).tr := by decide

/-- Claim C2 (amended): for a session whose activation reached the
promiscuous step, if the flag was observed enabled (`orig_promisc = 1`)
cleanup never issues a flags-set ioctl; if it was observed disabled
(`orig_promisc = 0`), cleanup issues the disabling flags-set ioctl exactly
when the fresh teardown flags query reports the flag still enabled *or
that query itself fails* (the code treats the query's `PCAP_ERROR` result
as nonzero, i.e. as "still enabled"). -/
theorem C2_promisc_restore_invariant (cos : CleanupOS) (h : pcap_t)
    (haux : h.priv.aux_socket ≥ 0) (hp : h.opt_promisc = true) :
    (h.priv.orig_promisc = 1 →
      ∀ fl, OsAction.setFlagsIoctl fl ∉ (pcap_cleanup_haiku cos h).tr) ∧
    (h.priv.orig_promisc = 0 →
      ((∃ fl, OsAction.setFlagsIoctl fl ∈ (pcap_cleanup_haiku cos h).tr) ↔
        (query_reports_enabled cos.getFlags = true ∨ ∃ e, cos.getFlags = OsRes.fail e))) := by
  constructor
  · intro h1 fl hmem
    have hc := (cleanup_tr_setFlags cos h).mp ⟨fl, hmem⟩
    omega
  · intro h0
    rw [cleanup_tr_setFlags]
    simp [haux, hp, h0]

/-- Witness for claim C2: the amended invariant applied to the concrete
promiscuous session `c2_session` and the failing teardown query. -/
theorem C2_witness :
    (c2_session.priv.aux_socket ≥ 0 ∧ c2_session.opt_promisc = true) ∧
    ((c2_session.priv.orig_promisc = 1 →
       ∀ fl, OsAction.setFlagsIoctl fl ∉ (pcap_cleanup_haiku c2_teardown c2_session).tr) ∧
     (c2_session.priv.orig_promisc = 0 →
       ((∃ fl, OsAction.setFlagsIoctl fl ∈ (pcap_cleanup_haiku c2_teardown c2_session).tr) ↔
         (query_reports_enabled c2_teardown.getFlags = true ∨
          ∃ e, c2_teardown.getFlags = OsRes.fail e)))) :=
  ⟨⟨by decide, by decide⟩,
   C2_promisc_restore_invariant c2_teardown c2_session (by decide) (by decide)⟩

/-- Claim C3: over any sequence of read-loop invocations that each
successfully receive an in-buffer datagram (no receive error, no break, no
oversize), of which the compiled filter rejects exactly K (counted by
`countP (rejects fcode)`), the received counter increases by the sequence
length N, the dropped-by-filter counter increases by K, and the callback
is invoked exactly N - K times. -/
theorem C3_read_sequence_stats (fc : Option (List Nat → Nat → Nat → Bool))
    (inps : List ReadInput) (h : pcap_t) (hb : h.break_loop = false)
    (hok : ∀ i ∈ inps, read_ok_input h.bufsize i = true) :
    (run_reads fc inps h).1.priv.stat.ps_recv = h.priv.stat.ps_recv + inps.length ∧
    (run_reads fc inps h).1.priv.stat.ps_drop =
      h.priv.stat.ps_drop + inps.countP (rejects fc) ∧
    (run_reads fc inps h).2 = inps.length - inps.countP (rejects fc) := by
  obtain ⟨a, b, c⟩ := run_reads_spec fc inps h hb hok
  exact ⟨a, b, by omega⟩

/-- Witness for claim C3: three successful reads on the activated session,
of which the concrete filter rejects exactly the length-2 datagram. -/
theorem C3_witness :
    (act_session.break_loop = false ∧
     ∀ i ∈ w3_inps, read_ok_input act_session.bufsize i = true) ∧
    ((run_reads w3_f w3_inps act_session).1.priv.stat.ps_recv =
       act_session.priv.stat.ps_recv + w3_inps.length ∧
     (run_reads w3_f w3_inps act_session).1.priv.stat.ps_drop =
       act_session.priv.stat.ps_drop + w3_inps.countP (rejects w3_f) ∧
     (run_reads w3_f w3_inps act_session).2 =
       w3_inps.length - w3_inps.countP (rejects w3_f)) :=
  ⟨⟨by decide, by decide⟩,
   C3_read_sequence_stats w3_f w3_inps act_session (by decide) (by decide)⟩

/-- Claim C4, counterexample: the claim asserts that an unrecognized
interface type code makes activation fail with a message naming that code
and the device, for every session.  On a session with promiscuous mode
requested, activation at an unknown type code (`0x1`) does return the
generic error, but the error-path cleanup runs the claim C1 bug's
promiscuous-flag ioctls against the same error buffer: its failing
`SIOCGIFFLAGS` overwrites the unknown-type message before activation
returns, so the returned buffer does not name the type code or device. -/
theorem C4_counterexample :
    c4_h.opt_promisc = true ∧
    (pcap_activate_haiku c4_os c4_cos c4_h).ret = PCAP_ERROR ∧
    (pcap_activate_haiku c4_os c4_cos c4_h).st.errbuf = fmt_errmsg "SIOCGIFFLAGS" 5 ∧
    (pcap_activate_haiku c4_os c4_cos c4_h).st.errbuf ≠
      unknown_type_msg 0x1 c4_h.opt_device := by decide

/-- Claim C4 (amended): during activation, once the address query has
returned an `AF_LINK` record, the interface type field fixes the link
type: the Ethernet code yields `DLT_EN10MB`, the tunnel and loopback
codes yield `DLT_RAW`, and any other code makes activation fail with the
generic error; the returned message names the unrecognized code (in hex)
and the device for sessions without the promiscuous request, whose
error-path cleanup leaves the error buffer intact (on promiscuous
sessions the claim C1 bug's cleanup ioctls can overwrite it, as the
counterexample shows). -/
theorem C4_linktype_mapping (os : ActivateOS) (cos : CleanupOS) (h : pcap_t)
    (auxFd dropped linkFd fam typ : Nat)
    (hA : os.auxSocket = OsRes.ok auxFd) (hS : os.gifstats = OsRes.ok dropped)
    (hL : os.linkSocket = OsRes.ok linkFd) (hG : os.gifaddr = OsRes.ok (fam, typ))
    (hFam : fam = AF_LINK) :
    (typ = IFT_ETHER → (pcap_activate_haiku os cos h).st.linktype = DLT_EN10MB) ∧
    ((typ = IFT_TUNNEL ∨ typ = IFT_LOOP) →
      (pcap_activate_haiku os cos h).st.linktype = DLT_RAW) ∧
    ((typ ≠ IFT_ETHER ∧ typ ≠ IFT_TUNNEL ∧ typ ≠ IFT_LOOP) →
      (pcap_activate_haiku os cos h).ret = PCAP_ERROR ∧
      (h.opt_promisc = false →
        (pcap_activate_haiku os cos h).st.errbuf = unknown_type_msg typ h.opt_device)) := by
  subst hFam
  refine ⟨?_, ?_, ?_⟩
  · intro hty
    subst hty
    have hlt : linktype_of_ift IFT_ETHER = some DLT_EN10MB := by
      simp [linktype_of_ift]
    unfold pcap_activate_haiku
    rcases hP : os.packetCap with e5 | u5 <;> rcases hM : os.mallocOk <;>
      by_cases hprom : h.opt_promisc = true <;>
      rcases hF : os.getFlags with e6 | fl <;> rcases hSet : os.setFlags with e7 | u7 <;>
      simp [hA, hS, hL, hG, hP, hM, hprom, hF, hSet, hlt, get_promisc, set_promisc,
        activate_error, cleanup_st_linktype] <;>
      split_ifs <;>
      simp [cleanup_st_linktype]
  · intro hty
    have hlt : linktype_of_ift typ = some DLT_RAW := by
      rcases hty with hty | hty <;> subst hty <;> simp [linktype_of_ift, IFT_ETHER,
        IFT_TUNNEL, IFT_LOOP]
    unfold pcap_activate_haiku
    rcases hP : os.packetCap with e5 | u5 <;> rcases hM : os.mallocOk <;>
      by_cases hprom : h.opt_promisc = true <;>
      rcases hF : os.getFlags with e6 | fl <;> rcases hSet : os.setFlags with e7 | u7 <;>
      simp [hA, hS, hL, hG, hP, hM, hprom, hF, hSet, hlt, get_promisc, set_promisc,
        activate_error, cleanup_st_linktype] <;>
      split_ifs <;>
      simp [cleanup_st_linktype]
  · intro hty
    have hlt : linktype_of_ift typ = none := by
      simp [linktype_of_ift, hty.1, hty.2.1, hty.2.2]
    constructor
    · unfold pcap_activate_haiku
      simp [hA, hS, hL, hG, hlt, activate_error]
    · intro hpf
      unfold pcap_activate_haiku
      simp [hA, hS, hL, hG, hlt, activate_error, cleanup_st_errbuf_no_promisc, hpf]

/-- Witness for claim C4: the mapping applied to a concrete loopback-type
interface, which resolves to the raw link type. -/
theorem C4_witness :
    (w4_os.auxSocket = OsRes.ok 3 ∧ w4_os.gifstats = OsRes.ok 0 ∧
     w4_os.linkSocket = OsRes.ok 4 ∧ w4_os.gifaddr = OsRes.ok (AF_LINK, IFT_LOOP) ∧
     AF_LINK = AF_LINK) ∧
    ((IFT_LOOP = IFT_ETHER →
       (pcap_activate_haiku w4_os act_cos0 (create_handle "dev0" false 0)).st.linktype =
         DLT_EN10MB) ∧
     ((IFT_LOOP = IFT_TUNNEL ∨ IFT_LOOP = IFT_LOOP) →
       (pcap_activate_haiku w4_os act_cos0 (create_handle "dev0" false 0)).st.linktype =
         DLT_RAW) ∧
     ((IFT_LOOP ≠ IFT_ETHER ∧ IFT_LOOP ≠ IFT_TUNNEL ∧ IFT_LOOP ≠ IFT_LOOP) →
       (pcap_activate_haiku w4_os act_cos0 (create_handle "dev0" false 0)).ret = PCAP_ERROR ∧
       ((create_handle "dev0" false 0).opt_promisc = false →
         (pcap_activate_haiku w4_os act_cos0 (create_handle "dev0" false 0)).st.errbuf =
           unknown_type_msg IFT_LOOP (create_handle "dev0" false 0).opt_device))) :=
  ⟨⟨rfl, rfl, rfl, rfl, rfl⟩,
   C4_linktype_mapping w4_os act_cos0 (create_handle "dev0" false 0) 3 0 4 AF_LINK IFT_LOOP
     rfl rfl rfl rfl rfl⟩

/-- Claim C5: on a read invocation with a compiled filter present and a
successfully received in-buffer datagram of length L, the filter decision
is `f bytes L L` — the actual received length is passed as both length
arguments, for every filter `f` and every configured snapshot length — and
a reject increments the dropped-by-filter counter and returns zero packets
processed with no callback invocation. -/
theorem C5_filter_gets_received_length (f : List Nat → Nat → Nat → Bool)
    (inp : ReadInput) (bytes : List Nat) (h : pcap_t)
    (hb : h.break_loop = false) (hr : inp.recv = OsRes.ok bytes)
    (hlen : bytes.length ≤ h.bufsize) :
    (f bytes bytes.length bytes.length = false →
      (pcap_read_haiku (some f) inp h).ret = 0 ∧
      (pcap_read_haiku (some f) inp h).cbs = [] ∧
      (pcap_read_haiku (some f) inp h).st.priv.stat.ps_drop = h.priv.stat.ps_drop + 1) ∧
    (f bytes bytes.length bytes.length = true →
      (pcap_read_haiku (some f) inp h).ret = 1 ∧
      (pcap_read_haiku (some f) inp h).cbs.length = 1 ∧
      (pcap_read_haiku (some f) inp h).st.priv.stat.ps_drop = h.priv.stat.ps_drop) := by
  have hno : ¬ (bytes.length > h.bufsize) := by omega
  constructor <;> intro hpf <;> simp [pcap_read_haiku, hb, hr, hno, hpf]

/-- Witness for claim C5: a concrete filter distinguishing its two length
arguments, applied to a two-byte datagram on the activated session. -/
theorem C5_witness :
    (act_session.break_loop = false ∧ w5_inp.recv = OsRes.ok [1, 2] ∧
     ([1, 2] : List Nat).length ≤ act_session.bufsize) ∧
    ((w5_f [1, 2] ([1, 2] : List Nat).length ([1, 2] : List Nat).length = false →
       (pcap_read_haiku (some w5_f) w5_inp act_session).ret = 0 ∧
       (pcap_read_haiku (some w5_f) w5_inp act_session).cbs = [] ∧
       (pcap_read_haiku (some w5_f) w5_inp act_session).st.priv.stat.ps_drop =
         act_session.priv.stat.ps_drop + 1) ∧
     (w5_f [1, 2] ([1, 2] : List Nat).length ([1, 2] : List Nat).length = true →
       (pcap_read_haiku (some w5_f) w5_inp act_session).ret = 1 ∧
       (pcap_read_haiku (some w5_f) w5_inp act_session).cbs.length = 1 ∧
       (pcap_read_haiku (some w5_f) w5_inp act_session).st.priv.stat.ps_drop =
         act_session.priv.stat.ps_drop)) :=
  ⟨⟨by decide, rfl, by decide⟩,
   C5_filter_gets_received_length w5_f w5_inp [1, 2] act_session (by decide) rfl (by decide)⟩

/-- Claim C6: on an activated session (snapshot clamped into
`[1, MAXIMUM_SNAPLEN]`, 64 KiB buffer), a received length exceeding the
buffer capacity aborts the read with the generic error and no callback,
and every header delivered to the callback has captured-length
`min(received length, snapshot length)`, original-length equal to the
received length, and captured-length at most 65536. -/
theorem C6_caplen (fc : Option (List Nat → Nat → Nat → Bool)) (inp : ReadInput)
    (bytes : List Nat) (h : pcap_t)
    (hs1 : 1 ≤ h.snapshot) (hs2 : h.snapshot ≤ MAXIMUM_SNAPLEN)
    (hbuf : h.bufsize = 65536) (hb : h.break_loop = false)
    (hr : inp.recv = OsRes.ok bytes) :
    (bytes.length > 65536 →
      (pcap_read_haiku fc inp h).ret = PCAP_ERROR ∧ (pcap_read_haiku fc inp h).cbs = []) ∧
    (∀ hdr ∈ (pcap_read_haiku fc inp h).cbs,
      hdr.caplen = min bytes.length h.snapshot.toNat ∧
      hdr.len = bytes.length ∧ hdr.caplen ≤ 65536) := by
  have hs2n : h.snapshot ≤ 262144 := hs2
  constructor
  · intro hlarge
    simp [pcap_read_haiku, hb, hr, hbuf, hlarge]
  · intro hdr hmem
    by_cases hlarge : bytes.length > 65536
    · simp [pcap_read_haiku, hb, hr, hbuf, hlarge] at hmem
    · have hle : bytes.length ≤ 65536 := by omega
      rcases fc with _ | f
      · simp [pcap_read_haiku, hb, hr, hbuf, hlarge] at hmem
        subst hmem
        refine ⟨?_, rfl, ?_⟩ <;> dsimp only <;> split <;> omega
      · rcases hpf : f bytes bytes.length bytes.length
        · simp [pcap_read_haiku, hb, hr, hbuf, hlarge, hpf] at hmem
        · simp [pcap_read_haiku, hb, hr, hbuf, hlarge, hpf] at hmem
          subst hmem
          refine ⟨?_, rfl, ?_⟩ <;> dsimp only <;> split <;> omega

/-- Witness for claim C6: a three-byte datagram on the activated session
(snapshot 262144): the delivered header has caplen 3 = min(3, 262144). -/
theorem C6_witness :
    (1 ≤ act_session.snapshot ∧ act_session.snapshot ≤ MAXIMUM_SNAPLEN ∧
     act_session.bufsize = 65536 ∧ act_session.break_loop = false ∧
     w6_inp.recv = OsRes.ok [1, 2, 3]) ∧
    ((([1, 2, 3] : List Nat).length > 65536 →
       (pcap_read_haiku none w6_inp act_session).ret = PCAP_ERROR ∧
       (pcap_read_haiku none w6_inp act_session).cbs = []) ∧
     (∀ hdr ∈ (pcap_read_haiku none w6_inp act_session).cbs,
       hdr.caplen = min ([1, 2, 3] : List Nat).length act_session.snapshot.toNat ∧
       hdr.len = ([1, 2, 3] : List Nat).length ∧ hdr.caplen ≤ 65536)) :=
  ⟨⟨by decide, by decide, by decide, by decide, rfl⟩,
   C6_caplen none w6_inp [1, 2, 3] act_session (by decide) (by decide) (by decide)
     (by decide) rfl⟩

/-- Claim C7: activation returns the distinguished
`PCAP_ERROR_NO_SUCH_DEVICE` exactly when the control socket opened and the
stats-baseline `SIOCGIFSTATS` ioctl — the first interface-touching step —
failed with `EINVAL`; every other outcome (including every later failure,
which takes the generic `PCAP_ERROR`, and the success/warning returns)
differs from it. -/
theorem C7_no_such_device_iff (os : ActivateOS) (cos : CleanupOS) (h : pcap_t) :
    (pcap_activate_haiku os cos h).ret = PCAP_ERROR_NO_SUCH_DEVICE ↔
      ((∃ fd, os.auxSocket = OsRes.ok fd) ∧ os.gifstats = OsRes.fail EINVAL) := by
  unfold pcap_activate_haiku
  rcases hA : os.auxSocket with e | auxFd
  · simp [hA, activate_error, PCAP_ERROR, PCAP_ERROR_NO_SUCH_DEVICE]
  · rcases hS : os.gifstats with e2 | dropped
    · by_cases he : e2 = EINVAL <;>
        simp [hA, hS, he, activate_error, PCAP_ERROR, PCAP_ERROR_NO_SUCH_DEVICE]
    · rcases hL : os.linkSocket with e3 | linkFd
      · simp [hA, hS, hL, activate_error, PCAP_ERROR, PCAP_ERROR_NO_SUCH_DEVICE]
      · rcases hG : os.gifaddr with e4 | ft
        · simp [hA, hS, hL, hG, activate_error, PCAP_ERROR, PCAP_ERROR_NO_SUCH_DEVICE]
        · by_cases hfam : ft.1 ≠ AF_LINK
          · simp [hA, hS, hL, hG, hfam, activate_error, PCAP_ERROR, PCAP_ERROR_NO_SUCH_DEVICE]
          · rcases hlt : linktype_of_ift ft.2 with _ | lt
            · simp [hA, hS, hL, hG, hfam, hlt, activate_error, PCAP_ERROR,
                PCAP_ERROR_NO_SUCH_DEVICE]
            · rcases hP : os.packetCap with e5 | u5
              · simp [hA, hS, hL, hG, hfam, hlt, hP, activate_error, PCAP_ERROR,
                  PCAP_ERROR_NO_SUCH_DEVICE]
              · rcases hM : os.mallocOk
                · simp [hA, hS, hL, hG, hfam, hlt, hP, hM, activate_error, PCAP_ERROR,
                    PCAP_ERROR_NO_SUCH_DEVICE]
                · by_cases hprom : h.opt_promisc = true
                  · rcases hF : os.getFlags with e6 | fl
                    · simp [hA, hS, hL, hG, hfam, hlt, hP, hM, hprom, hF, get_promisc,
                        activate_error, PCAP_ERROR, PCAP_ERROR_NO_SUCH_DEVICE]
                    · by_cases hbit : fl &&& IFF_PROMISC ≠ 0
                      · simp [hA, hS, hL, hG, hfam, hlt, hP, hM, hprom, hF, hbit,
                          get_promisc, activate_error, PCAP_ERROR, PCAP_ERROR_NO_SUCH_DEVICE]
                      · rcases hSet : os.setFlags with e7 | u7 <;>
                          simp [hA, hS, hL, hG, hfam, hlt, hP, hM, hprom, hF, hbit, hSet,
                            get_promisc, set_promisc, activate_error, PCAP_ERROR,
                            PCAP_ERROR_NO_SUCH_DEVICE, PCAP_WARNING_PROMISC_NOTSUP]
                  · simp [hA, hS, hL, hG, hfam, hlt, hP, hM, hprom, activate_error,
                      PCAP_ERROR, PCAP_ERROR_NO_SUCH_DEVICE]

/-- Claim C8: when promiscuous mode was requested and activation reaches
the final step (all earlier steps succeeded): a flags query reporting the
flag already enabled yields success with no flags-set ioctl anywhere in
the activation trace; a disabled flag whose enabling ioctl fails yields
the non-fatal `PCAP_WARNING_PROMISC_NOTSUP` with the operation table
installed, the capture descriptor still open, and the buffer allocated; a
failing flags query aborts with the generic `PCAP_ERROR`. -/
theorem C8_promisc_step_outcomes (os : ActivateOS) (cos : CleanupOS) (h : pcap_t)
    (auxFd dropped linkFd typ lt : Nat)
    (hprom : h.opt_promisc = true)
    (hA : os.auxSocket = OsRes.ok auxFd) (hS : os.gifstats = OsRes.ok dropped)
    (hL : os.linkSocket = OsRes.ok linkFd) (hG : os.gifaddr = OsRes.ok (AF_LINK, typ))
    (hT : linktype_of_ift typ = some lt)
    (hP : os.packetCap = OsRes.ok ()) (hM : os.mallocOk = true) :
    (∀ fl, os.getFlags = OsRes.ok fl → fl &&& IFF_PROMISC ≠ 0 →
      (pcap_activate_haiku os cos h).ret = 0 ∧
      ∀ fl2, OsAction.setFlagsIoctl fl2 ∉ (pcap_activate_haiku os cos h).tr) ∧
    (∀ fl, os.getFlags = OsRes.ok fl → fl &&& IFF_PROMISC = 0 →
      (∃ e, os.setFlags = OsRes.fail e) →
      (pcap_activate_haiku os cos h).ret = PCAP_WARNING_PROMISC_NOTSUP ∧
      (pcap_activate_haiku os cos h).st.ops_installed = true ∧
      (pcap_activate_haiku os cos h).st.fd = (linkFd : Int) ∧
      (pcap_activate_haiku os cos h).st.buffer_allocated = true) ∧
    (∀ e, os.getFlags = OsRes.fail e →
      (pcap_activate_haiku os cos h).ret = PCAP_ERROR) := by
  refine ⟨?_, ?_, ?_⟩
  · intro fl hF hbit
    unfold pcap_activate_haiku
    simp [hA, hS, hL, hG, hP, hM, hT, hprom, hF, hbit, get_promisc, set_promisc,
      activate_error]
  · intro fl hF hbit hSet
    obtain ⟨e7, hSet⟩ := hSet
    unfold pcap_activate_haiku
    simp [hA, hS, hL, hG, hP, hM, hT, hprom, hF, hbit, hSet, get_promisc, set_promisc,
      activate_error, PCAP_ERROR]
  · intro e6 hF
    unfold pcap_activate_haiku
    simp [hA, hS, hL, hG, hP, hM, hT, hprom, hF, get_promisc, activate_error, PCAP_ERROR]

/-- Witness for claim C8: concrete session whose flags query reports the
promiscuous flag already enabled; activation succeeds without issuing a
flags-set ioctl. -/
theorem C8_witness :
    (w8_h.opt_promisc = true ∧ w8_os.auxSocket = OsRes.ok 3 ∧
     w8_os.gifstats = OsRes.ok 0 ∧ w8_os.linkSocket = OsRes.ok 4 ∧
     w8_os.gifaddr = OsRes.ok (AF_LINK, IFT_ETHER) ∧
     linktype_of_ift IFT_ETHER = some DLT_EN10MB ∧
     w8_os.packetCap = OsRes.ok () ∧ w8_os.mallocOk = true) ∧
    ((∀ fl, w8_os.getFlags = OsRes.ok fl → fl &&& IFF_PROMISC ≠ 0 →
       (pcap_activate_haiku w8_os act_cos0 w8_h).ret = 0 ∧
       ∀ fl2, OsAction.setFlagsIoctl fl2 ∉ (pcap_activate_haiku w8_os act_cos0 w8_h).tr) ∧
     (∀ fl, w8_os.getFlags = OsRes.ok fl → fl &&& IFF_PROMISC = 0 →
       (∃ e, w8_os.setFlags = OsRes.fail e) →
       (pcap_activate_haiku w8_os act_cos0 w8_h).ret = PCAP_WARNING_PROMISC_NOTSUP ∧
       (pcap_activate_haiku w8_os act_cos0 w8_h).st.ops_installed = true ∧
       (pcap_activate_haiku w8_os act_cos0 w8_h).st.fd = ((4 : Nat) : Int) ∧
       (pcap_activate_haiku w8_os act_cos0 w8_h).st.buffer_allocated = true) ∧
     (∀ e, w8_os.getFlags = OsRes.fail e →
       (pcap_activate_haiku w8_os act_cos0 w8_h).ret = PCAP_ERROR)) :=
  ⟨⟨rfl, rfl, rfl, rfl, rfl, rfl, rfl, rfl⟩,
   C8_promisc_step_outcomes w8_os act_cos0 w8_h 3 0 4 IFT_ETHER DLT_EN10MB rfl rfl rfl rfl
     rfl rfl rfl rfl⟩

/-- Claim C9: for any session in a reachable descriptor state, the first
cleanup call leaves both descriptors marked closed (`-1`), and the second
cleanup call returns exactly the same state with an empty action trace —
no descriptor close and no promiscuous-flag ioctl.  (`pcap_cleanup_haiku`
returns `void`, so by type it can never signal failure.) -/
theorem C9_cleanup_idempotent (cos1 cos2 : CleanupOS) (h : pcap_t)
    (hfd : h.fd = -1 ∨ h.fd ≥ 0)
    (haux : h.priv.aux_socket = -1 ∨ h.priv.aux_socket ≥ 0) :
    (pcap_cleanup_haiku cos1 h).st.fd = -1 ∧
    (pcap_cleanup_haiku cos1 h).st.priv.aux_socket = -1 ∧
    pcap_cleanup_haiku cos2 (pcap_cleanup_haiku cos1 h).st =
      { st := (pcap_cleanup_haiku cos1 h).st, tr := [] } := by
  obtain ⟨h1, h2⟩ := cleanup_closes cos1 h hfd haux
  refine ⟨h1, h2, cleanup_noop cos2 _ ?_ ?_⟩ <;> omega

/-- Witness for claim C9: double cleanup of the concrete activated
session. -/
theorem C9_witness :
    ((act_session.fd = -1 ∨ act_session.fd ≥ 0) ∧
     (act_session.priv.aux_socket = -1 ∨ act_session.priv.aux_socket ≥ 0)) ∧
    ((pcap_cleanup_haiku act_cos0 act_session).st.fd = -1 ∧
     (pcap_cleanup_haiku act_cos0 act_session).st.priv.aux_socket = -1 ∧
     pcap_cleanup_haiku act_cos0 (pcap_cleanup_haiku act_cos0 act_session).st =
       { st := (pcap_cleanup_haiku act_cos0 act_session).st, tr := [] }) :=
  ⟨⟨by decide, by decide⟩,
   C9_cleanup_idempotent act_cos0 act_cos0 act_session (by decide) (by decide)⟩

/-- Claim C10: the stats query is not atomic on error: for every session
and every errno, when the kernel stats ioctl fails the query returns the
generic `PCAP_ERROR`, yet the caller's record has already been overwritten
with the running counters — its `ps_ifdrop` field holding the stale
activation-time baseline rather than a drop delta. -/
theorem C10_stats_error_after_overwrite (e : Nat) (h : pcap_t) :
    (pcap_stats_haiku (OsRes.fail e) h).ret = PCAP_ERROR ∧
    (pcap_stats_haiku (OsRes.fail e) h).record = h.priv.stat :=
  ⟨rfl, rfl⟩
